import Mathlib

/-!
Verification development for the push-descriptors-with-template example
(`examples/pushdescriptorswithtemplate/pushdescriptorswithtemplate.cpp`).

The file shallowly embeds the parts of the example relevant to the
per-draw binding subsystem: the two descriptor-dispatch paths and the
alternating selector (`buildCommandBuffers`), the descriptor update
template entries (`prepare`), the rotation accumulation and model-matrix
composition (`updateCubeUniformBuffers`), the proc-address resolution and
the construction-call checking in `prepare`.

Machine integers of the source are modelled as `Nat`; the float rotation
arithmetic is modelled over `ℚ` (all constants involved — 2.5, 2.0, 360,
359, 1.5 — are exactly representable in binary floating point and the
additions/subtractions involved are exact at these magnitudes); Vulkan
handles are opaque `Nat`s, with `VK_NULL_HANDLE` modelled as `none` of an
`Option Nat` where nullness matters.
-/

namespace PushDescriptorsWithTemplate

/-! ### Descriptor data blob and the two dispatch paths (lines 19-23, 127-158) -/

/-- Model of the host-side `DescriptorData` blob (source lines 19-23): a plain
record of three descriptor infos.  The descriptor infos themselves are opaque
to the dispatch logic and are modelled as `Nat`s. -/
structure DescriptorData where
  uniform_buffer : Nat
  cube_uniform_buffer : Nat
  cube_texture : Nat
deriving DecidableEq

/-- The blob assembly at lines 135-138: `d_data` is filled from the scene
uniform buffer descriptor and the current cube's uniform buffer and texture
descriptors. -/
def assembleBlob (sceneUniform cubeUniform cubeTexture : Nat) : DescriptorData :=
  { uniform_buffer := sceneUniform
    cube_uniform_buffer := cubeUniform
    cube_texture := cubeTexture }

/-- The `sType` tag of the structured push info (line 144 assigns the constant
`VK_STRUCTURE_TYPE_PUSH_DESCRIPTOR_SET_WITH_TEMPLATE_INFO_KHR`). -/
inductive StructureType where
  | pushDescriptorSetWithTemplateInfoKHR
deriving DecidableEq

/-- Model of `VkPushDescriptorSetWithTemplateInfoKHR` as filled at source
lines 143-149.  `pData` is a pointer to a `DescriptorData`; the pointed-to
value is modelled directly. -/
structure VkPushDescriptorSetWithTemplateInfoKHR where
  sType : StructureType
  pNext : Option Nat
  descriptorUpdateTemplate : Nat
  layout : Nat
  set : Nat
  pData : DescriptorData
deriving DecidableEq

/-- The structured record built at lines 143-149: sType set to the template
push constant, pNext null, then the template handle, the pipeline layout,
set index 0 and the pointer to the blob. -/
def mkPushInfo (descriptorTemplate pipelineLayout : Nat) (d_data : DescriptorData) :
    VkPushDescriptorSetWithTemplateInfoKHR :=
  { sType := StructureType.pushDescriptorSetWithTemplateInfoKHR
    pNext := none
    descriptorUpdateTemplate := descriptorTemplate
    layout := pipelineLayout
    set := 0
    pData := d_data }

/-- The four values a template push actually delivers to the device: which
template to apply, against which pipeline layout, at which set index, reading
which host blob. -/
structure BindRecord where
  template : Nat
  layout : Nat
  setIndex : Nat
  data : DescriptorData
deriving DecidableEq

/-- Semantics of `vkCmdPushDescriptorSetWithTemplateKHR` (the direct path,
line 152): the four discrete arguments are delivered as-is. -/
def pushWithTemplateDirect (descriptorTemplate pipelineLayout setIndex : Nat)
    (d_data : DescriptorData) : BindRecord :=
  { template := descriptorTemplate
    layout := pipelineLayout
    setIndex := setIndex
    data := d_data }

/-- Semantics of `vkCmdPushDescriptorSetWithTemplate2KHR` (the structured
path, line 150): the device reads the template, layout, set index and data
pointer out of the info record. -/
def pushWithTemplateStructured (info : VkPushDescriptorSetWithTemplateInfoKHR) : BindRecord :=
  { template := info.descriptorUpdateTemplate
    layout := info.layout
    setIndex := info.set
    data := info.pData }

/-- The `useNew` branch of lines 142-150: build the push info record and issue
the structured call. -/
def structuredBranch (descriptorTemplate pipelineLayout : Nat) (d_data : DescriptorData) :
    BindRecord :=
  pushWithTemplateStructured (mkPushInfo descriptorTemplate pipelineLayout d_data)

/-- The `else` branch of lines 151-153: issue the direct call with the four
discrete arguments, set index 0. -/
def directBranch (descriptorTemplate pipelineLayout : Nat) (d_data : DescriptorData) :
    BindRecord :=
  pushWithTemplateDirect descriptorTemplate pipelineLayout 0 d_data

/-! ### The alternating dispatch selector (lines 140-154) -/

/-- The two dispatch paths of §4.2: `direct` is the discrete-argument call
(`vkCmdPushDescriptorSetWithTemplateKHR`), `structured` the record call
(`vkCmdPushDescriptorSetWithTemplate2KHR`). -/
inductive BindPath where
  | direct
  | structured
deriving DecidableEq

/-- Value of the function-local `static bool useNew` (line 140) when binding
call number `k` (counting from 0, process-wide) consults it: it starts `false`
and line 154 (`useNew = !useNew`) negates it after every call; being a local
static it is never reset. -/
def useNewAt : Nat → Bool
  | 0 => false
  | k + 1 => !useNewAt k

/-- The path taken by binding call `k`: lines 142-153 use the structured call
when `useNew` is true and the direct call otherwise. -/
def pathOfCall (k : Nat) : BindPath :=
  if useNewAt k then BindPath.structured else BindPath.direct

/-- The bind record produced by binding call `k` for the given template,
pipeline layout and blob (the whole `if`/`else` of lines 142-153). -/
def recordOfCall (k : Nat) (descriptorTemplate pipelineLayout : Nat)
    (d_data : DescriptorData) : BindRecord :=
  match pathOfCall k with
  | BindPath.structured => structuredBranch descriptorTemplate pipelineLayout d_data
  | BindPath.direct => directBranch descriptorTemplate pipelineLayout d_data

/-! ### Template entries (lines 19-23, 314-335) -/

/-- Byte size of `VkDescriptorBufferInfo` on an LP64 platform:
`VkBuffer` (8) + `VkDeviceSize` offset (8) + `VkDeviceSize` range (8). -/
def sizeofVkDescriptorBufferInfo : Nat := 24

/-- Byte size of `VkDescriptorImageInfo` on an LP64 platform:
`VkSampler` (8) + `VkImageView` (8) + `VkImageLayout` (4) padded to the
8-byte alignment of the handle members. -/
def sizeofVkDescriptorImageInfo : Nat := 24

/-- Byte size of the `DescriptorData` blob (lines 19-23): two
`VkDescriptorBufferInfo` members followed by one `VkDescriptorImageInfo`,
all 8-aligned, hence no interior padding. -/
def sizeofDescriptorData : Nat :=
  sizeofVkDescriptorBufferInfo + sizeofVkDescriptorBufferInfo + sizeofVkDescriptorImageInfo

/-- The two descriptor types used by the template entries (lines 319, 326, 333). -/
inductive DescriptorType where
  | uniformBuffer
  | combinedImageSampler
deriving DecidableEq

/-- The size of the host descriptor info record a template entry of the given
type reads: a `VkDescriptorBufferInfo` for uniform buffers, a
`VkDescriptorImageInfo` for combined image samplers. -/
def descriptorInfoSize : DescriptorType → Nat
  | DescriptorType.uniformBuffer => sizeofVkDescriptorBufferInfo
  | DescriptorType.combinedImageSampler => sizeofVkDescriptorImageInfo

/-- Model of `VkDescriptorUpdateTemplateEntry` (the fields the source assigns
at lines 315-335). -/
structure VkDescriptorUpdateTemplateEntry where
  dstBinding : Nat
  dstArrayElement : Nat
  descriptorCount : Nat
  descriptorType : DescriptorType
  offset : Nat
  stride : Nat
deriving DecidableEq

/-- The three template entries exactly as filled at lines 315-335: bindings
0 and 1 are uniform buffers at offsets 0 and `sizeof(VkDescriptorBufferInfo)`,
binding 2 is the combined image sampler at offset
`2 * sizeof(VkDescriptorBufferInfo)`; every entry has `descriptorCount` 1 and
stride `sizeof(DescriptorData)`. -/
def template_entries : List VkDescriptorUpdateTemplateEntry :=
  [ { dstBinding := 0
      dstArrayElement := 0
      descriptorCount := 1
      descriptorType := DescriptorType.uniformBuffer
      offset := 0
      stride := sizeofDescriptorData },
    { dstBinding := 1
      dstArrayElement := 0
      descriptorCount := 1
      descriptorType := DescriptorType.uniformBuffer
      offset := sizeofVkDescriptorBufferInfo
      stride := sizeofDescriptorData },
    { dstBinding := 2
      dstArrayElement := 0
      descriptorCount := 1
      descriptorType := DescriptorType.combinedImageSampler
      offset := 2 * sizeofVkDescriptorBufferInfo
      stride := sizeofDescriptorData } ]

/-- The TemplateEntry invariant exactly as the claim states it: the offset
plus the descriptor size of the entry's resource kind fits in the blob, the
stride is the blob's per-record size, and the stride is non-zero only when
`descriptorCount > 1`. -/
def entryClaimedInvariant (e : VkDescriptorUpdateTemplateEntry) : Prop :=
  e.offset + descriptorInfoSize e.descriptorType ≤ sizeofDescriptorData ∧
  e.stride = sizeofDescriptorData ∧
  (e.stride ≠ 0 → 1 < e.descriptorCount)

instance (e : VkDescriptorUpdateTemplateEntry) : Decidable (entryClaimedInvariant e) := by
  unfold entryClaimedInvariant
  infer_instance

/-! ### Rotation accumulation (lines 265-272) -/

/-- One axis update of lines 266-268 (and 269-271): add the increment, then
subtract 360 once if the accumulator now exceeds 360 (strict comparison
`> 360.0f`). -/
def wrapStep (r inc : ℚ) : ℚ :=
  let r' := r + inc
  if r' > 360 then r' - 360 else r'

/-- The value of one axis accumulator after applying the per-frame increments
`incs` in order, starting from the initial rotation 0. -/
def rotAfter (incs : List ℚ) : ℚ :=
  incs.foldl wrapStep 0

/-! ### Model matrices (lines 252-273)

`glm` transform helpers post-multiply their matrix argument by the new
transform (`glm::translate(m, v) = m * T(v)`, `glm::rotate(m, a, axis) =
m * R(a, axis)`, `glm::scale(m, s) = m * S(s)`).  The source only rotates
about the three unit axes, so the three axis specialisations of
`glm::rotate` are embedded.  The cosine/sine of the angle (the source takes
`cos`/`sin` of `glm::radians(degrees)`) are abstracted as a pair of
functions `cosd sind : ℚ → ℚ` from the accumulated degree value: the
composition-order and data-flow claims hold for every such pair. -/

/-- 4×4 model matrices over `ℚ`. -/
abbrev Mat4 := Matrix (Fin 4) (Fin 4) ℚ

/-- A three-component vector (used for translations and for the rotation
accumulators `Cube::rotation`). -/
structure Vec3 where
  x : ℚ
  y : ℚ
  z : ℚ
deriving DecidableEq

/-- Homogeneous translation matrix `T(v)`. -/
def transMat (v : Vec3) : Mat4 :=
  !![1, 0, 0, v.x; 0, 1, 0, v.y; 0, 0, 1, v.z; 0, 0, 0, 1]

/-- Rotation about the x axis with cosine `c` and sine `s`. -/
def rotXMat (c s : ℚ) : Mat4 :=
  !![1, 0, 0, 0; 0, c, -s, 0; 0, s, c, 0; 0, 0, 0, 1]

/-- Rotation about the y axis with cosine `c` and sine `s`. -/
def rotYMat (c s : ℚ) : Mat4 :=
  !![c, 0, s, 0; 0, 1, 0, 0; -s, 0, c, 0; 0, 0, 0, 1]

/-- Rotation about the z axis with cosine `c` and sine `s`. -/
def rotZMat (c s : ℚ) : Mat4 :=
  !![c, -s, 0, 0; s, c, 0, 0; 0, 0, 1, 0; 0, 0, 0, 1]

/-- Homogeneous uniform scale matrix `S(k)`. -/
def scaleMat (k : ℚ) : Mat4 :=
  !![k, 0, 0, 0; 0, k, 0, 0; 0, 0, k, 0; 0, 0, 0, 1]

/-- `glm::translate(m, v)`: post-multiply by the translation. -/
def glmTranslate (m : Mat4) (v : Vec3) : Mat4 := m * transMat v

/-- `glm::rotate(m, a, vec3(1,0,0))` with `c = cos a`, `s = sin a`. -/
def glmRotateX (m : Mat4) (c s : ℚ) : Mat4 := m * rotXMat c s

/-- `glm::rotate(m, a, vec3(0,1,0))` with `c = cos a`, `s = sin a`. -/
def glmRotateY (m : Mat4) (c s : ℚ) : Mat4 := m * rotYMat c s

/-- `glm::rotate(m, a, vec3(0,0,1))` with `c = cos a`, `s = sin a`. -/
def glmRotateZ (m : Mat4) (c s : ℚ) : Mat4 := m * rotZMat c s

/-- `glm::scale(m, vec3(k))`: post-multiply by the uniform scale. -/
def glmScale (m : Mat4) (k : ℚ) : Mat4 := m * scaleMat k

/-- Per-cube state touched by `updateCubeUniformBuffers`: the rotation
accumulator (`Cube::rotation`), the model matrix (`Cube::modelMat`) and the
contents of the cube's host-mapped uniform buffer (the `memcpy` target at
line 262). -/
structure CubeSt where
  rotation : Vec3
  modelMat : Mat4
  mappedBuffer : Mat4

/-- The loop body of lines 257-263 for one cube: rotate the cube's current
model matrix about x, y, z by the accumulated angles, apply the fixed uniform
scale 0.25, store the result in `modelMat` and `memcpy` it into the mapped
uniform buffer. -/
def applyRotScale (cosd sind : ℚ → ℚ) (c : CubeSt) : CubeSt :=
  let m := glmRotateX c.modelMat (cosd c.rotation.x) (sind c.rotation.x)
  let m := glmRotateY m (cosd c.rotation.y) (sind c.rotation.y)
  let m := glmRotateZ m (cosd c.rotation.z) (sind c.rotation.z)
  let m := glmScale m (1 / 4)
  { c with modelMat := m, mappedBuffer := m }

/-- `updateCubeUniformBuffers()` (lines 252-273): reset each cube's model
matrix to its fixed translation (lines 254-255: cube 0 at (-2, 0, 0), cube 1
at (1.5, 0.5, 0)), rotate/scale and write each matrix to the mapped buffer
(lines 257-263), then — only when animating and not paused — advance cube 0's
x accumulator by `2.5 * frameTimer` and cube 1's y accumulator by
`2.0 * frameTimer`, each wrapping by a single subtraction of 360 past 360
(lines 265-272). -/
def updateCubeUniformBuffers (cosd sind : ℚ → ℚ) (animate paused : Bool)
    (frameTimer : ℚ) (cubes : CubeSt × CubeSt) : CubeSt × CubeSt :=
  let c0 := { cubes.1 with modelMat := glmTranslate 1 ⟨-2, 0, 0⟩ }
  let c1 := { cubes.2 with modelMat := glmTranslate 1 ⟨3 / 2, 1 / 2, 0⟩ }
  let c0 := applyRotScale cosd sind c0
  let c1 := applyRotScale cosd sind c1
  if animate && !paused then
    ({ c0 with rotation := { c0.rotation with x := wrapStep c0.rotation.x (5 / 2 * frameTimer) } },
     { c1 with rotation := { c1.rotation with y := wrapStep c1.rotation.y (2 * frameTimer) } })
  else
    (c0, c1)

/-- The model matrix `updateCubeUniformBuffers` computes for a cube with
fixed translation `t` and rotation accumulator `r`: the lines 254-262
pipeline as a function of the rotation state. -/
def cubeModelFromRotation (cosd sind : ℚ → ℚ) (t r : Vec3) : Mat4 :=
  glmScale
    (glmRotateZ
      (glmRotateY
        (glmRotateX (glmTranslate 1 t) (cosd r.x) (sind r.x))
        (cosd r.y) (sind r.y))
      (cosd r.z) (sind r.z))
    (1 / 4)

/-! ### Proc-address resolution during `prepare()` (lines 284-312) -/

/-- The entry points `prepare()` resolves from the driver, in source order
(lines 284, 290, 301, 305, 309). -/
def requiredProcs : List String :=
  [ "vkCmdPushDescriptorSetKHR",
    "vkGetPhysicalDeviceProperties2KHR",
    "vkCreateDescriptorUpdateTemplateKHR",
    "vkCmdPushDescriptorSetWithTemplateKHR",
    "vkCmdPushDescriptorSetWithTemplate2KHR" ]

/-- Resolve the named entry points in order; on the first null result,
terminate fatally with the diagnostic of the corresponding
`vks::tools::exitFatal` call (each check at lines 285-287, 291-293, 302-304,
306-308, 310-312 follows this exact pattern). -/
def resolveProcs (resolve : String → Option Nat) : List String → Except String Unit
  | [] => Except.ok ()
  | n :: rest =>
    match resolve n with
    | none => Except.error ("Could not get a valid function pointer for " ++ n)
    | some _ => resolveProcs resolve rest

/-- The proc-resolution prefix of `prepare()`: resolve all five entry points,
failing fatally on the first null. -/
def loadProcs (resolve : String → Option Nat) : Except String Unit :=
  resolveProcs resolve requiredProcs

/-- Whether any per-frame work runs: `render()` (lines 373-382) does nothing
unless `prepared` is true, and `prepared = true` (line 361) is reached only
if every `exitFatal` check in `prepare()` was passed — a fatal exit
terminates the process before the render loop. -/
def perFrameWorkRuns (resolve : String → Option Nat) : Bool :=
  (loadProcs resolve).isOk

/-! ### Handle flow of `prepare()` (lines 52-55, 190, 198, 314-362)

Only the fields whose construction order the claims are about are modelled:
the descriptor set layout and pipeline layout members, the arguments captured
by the `VkDescriptorUpdateTemplateCreateInfoKHR` at the moment
`vkCreateDescriptorUpdateTemplateKHR` is called, and the `prepared` flag.
`VK_NULL_HANDLE` is `none`. -/

/-- A Vulkan handle, `none` for `VK_NULL_HANDLE`. -/
abbrev Handle := Option Nat

/-- The template-creation arguments the claims inspect, as filled at lines
338-348: entry count 3 (line 342), the `descriptorSetLayout` member
(line 345), the `pipelineLayout` member (line 347) and set 0 (line 348). -/
structure TemplateCreateArgs where
  descriptorUpdateEntryCount : Nat
  descriptorSetLayout : Handle
  pipelineLayout : Handle
  set : Nat
deriving DecidableEq

/-- The example-object state the handle-flow claims are about. -/
structure PrepareSt where
  descriptorSetLayout : Handle
  pipelineLayout : Handle
  templateArgs : Option TemplateCreateArgs
  prepared : Bool
deriving DecidableEq

/-- Member initializers: `pipelineLayout{ VK_NULL_HANDLE }` (line 53),
`descriptorSetLayout{ VK_NULL_HANDLE }` (line 54), no template created,
not prepared. -/
def initialSt : PrepareSt :=
  { descriptorSetLayout := none
    pipelineLayout := none
    templateArgs := none
    prepared := false }

/-- The handle flow of `prepare()` (lines 275-362), steps in source order:
the template create info reads the current `descriptorSetLayout` and
`pipelineLayout` members (lines 345, 347) and the template is created at
line 349; `setupDescriptorSetLayout()` (called at line 357, assignment at
line 190) and `preparePipelines()` (called at line 358, assignment at
line 198) store the device-returned handles `h_dsl` and `h_pl` only
afterwards; finally `prepared = true` (line 361).  `loadAssets()` and
`prepareUniformBuffers()` touch none of these fields. -/
def runPrepare (h_dsl h_pl : Nat) : PrepareSt :=
  let st := initialSt
  let template_info : TemplateCreateArgs :=
    { descriptorUpdateEntryCount := 3
      descriptorSetLayout := st.descriptorSetLayout
      pipelineLayout := st.pipelineLayout
      set := 0 }
  let st := { st with templateArgs := some template_info }
  let st := { st with descriptorSetLayout := some h_dsl }
  let st := { st with pipelineLayout := some h_pl }
  { st with prepared := true }

/-! ### Result checking of the construction calls (lines 190, 198, 226, 349) -/

/-- The device construction requests issued during setup that the
error-handling claims are about. -/
inductive SetupCall where
  | createDescriptorUpdateTemplate
  | createDescriptorSetLayout
  | createPipelineLayout
  | createGraphicsPipelines
deriving DecidableEq

/-- Whether the source wraps the call's `VkResult` in `VK_CHECK_RESULT`
(which exits fatally on any non-success result):
`vkCreateDescriptorSetLayout` at line 190, `vkCreatePipelineLayout` at
line 198 and `vkCreateGraphicsPipelines` at line 226 are wrapped;
`vkCreateDescriptorUpdateTemplateKHR` at line 349 is called bare and its
result is discarded. -/
def resultChecked : SetupCall → Bool
  | SetupCall.createDescriptorUpdateTemplate => false
  | SetupCall.createDescriptorSetLayout => true
  | SetupCall.createPipelineLayout => true
  | SetupCall.createGraphicsPipelines => true

/-- The construction calls in the order `prepare()` executes them: the
template at line 349, then via lines 357-358 the descriptor set layout
(line 190), the pipeline layout (line 198) and the graphics pipeline
(line 226). -/
def setupSequence : List SetupCall :=
  [ SetupCall.createDescriptorUpdateTemplate,
    SetupCall.createDescriptorSetLayout,
    SetupCall.createPipelineLayout,
    SetupCall.createGraphicsPipelines ]

/-- Execute a list of construction calls: a call whose result is checked and
which the device rejects (`ok c = false`) aborts fatally naming the call;
an unchecked call continues regardless of its result.  Reaching the end of
the sequence sets `prepared = true` (line 361). -/
def runSetupCalls (ok : SetupCall → Bool) : List SetupCall → Except SetupCall Bool
  | [] => Except.ok true
  | c :: rest =>
    if resultChecked c && !ok c then Except.error c
    else runSetupCalls ok rest

/-- The construction-call outcome of `prepare()`: `Except.ok true` means the
render loop is entered with `prepared = true`; `Except.error c` means
`VK_CHECK_RESULT` terminated the process at call `c`. -/
def runSetup (ok : SetupCall → Bool) : Except SetupCall Bool :=
  runSetupCalls ok setupSequence

/-! ## Theorems -/

/-- C1: for every draw recorded by `buildCommandBuffers`, the two dispatch
mechanisms are equivalent — the structured path packages exactly the template
handle, the pipeline layout, set index 0 and the blob pointer into its
descriptor record, which is what the direct path passes as discrete
arguments, so identical template/layout/blob inputs produce identical bind
records; moreover both paths bind at set index 0. -/
theorem dispatchPathsEquivalent :
    ∀ (descriptorTemplate pipelineLayout : Nat) (d_data : DescriptorData),
      structuredBranch descriptorTemplate pipelineLayout d_data =
        directBranch descriptorTemplate pipelineLayout d_data ∧
      (mkPushInfo descriptorTemplate pipelineLayout d_data).descriptorUpdateTemplate =
        descriptorTemplate ∧
      (mkPushInfo descriptorTemplate pipelineLayout d_data).layout = pipelineLayout ∧
      (mkPushInfo descriptorTemplate pipelineLayout d_data).set = 0 ∧
      (mkPushInfo descriptorTemplate pipelineLayout d_data).pData = d_data ∧
      (structuredBranch descriptorTemplate pipelineLayout d_data).setIndex = 0 := by
  intro descriptorTemplate pipelineLayout d_data
  exact ⟨rfl, rfl, rfl, rfl, rfl, rfl⟩

/-- The `useNew` selector equals the parity of the call counter. -/
lemma useNewAt_eq_mod (k : Nat) : useNewAt k = decide (k % 2 = 1) := by
  induction k with
  | zero => rfl
  | succ k ih =>
    rw [useNewAt, ih]
    rcases Nat.mod_two_eq_zero_or_one k with h | h
    · have h2 : (k + 1) % 2 = 1 := by omega
      simp [h, h2]
    · have h2 : (k + 1) % 2 = 0 := by omega
      simp [h, h2]

/-- C2: the dispatch selector alternates deterministically — `useNew` starts
`false`, flips after every binding call, and call `k` (counting from 0) takes
the direct path exactly when `k` is even and the structured path exactly when
`k` is odd. -/
theorem selectorAlternatesDeterministically :
    ∀ k : Nat,
      useNewAt 0 = false ∧
      useNewAt (k + 1) = !useNewAt k ∧
      (pathOfCall k = BindPath.direct ↔ k % 2 = 0) ∧
      (pathOfCall k = BindPath.structured ↔ k % 2 = 1) := by
  intro k
  refine ⟨rfl, rfl, ?_, ?_⟩ <;>
  · rw [pathOfCall, useNewAt_eq_mod]
    rcases Nat.mod_two_eq_zero_or_one k with h | h <;> simp [h]

/-- C3 (code evaluated at the failing input): in `prepare()` the update
template is created while the `descriptorSetLayout` and `pipelineLayout`
members still hold `VK_NULL_HANDLE` — `setupDescriptorSetLayout()` and
`preparePipelines()` run only afterwards — so the template's captured
handles (`none`, `none`) are not the handles (`some 7`, `some 11`) the bind
calls and the pipeline later use. -/
theorem templateCreatedBeforeLayouts :
    (runPrepare 7 11).templateArgs =
      some { descriptorUpdateEntryCount := 3
             descriptorSetLayout := none
             pipelineLayout := none
             set := 0 } ∧
    (runPrepare 7 11).descriptorSetLayout = some 7 ∧
    (runPrepare 7 11).pipelineLayout = some 11 ∧
    (runPrepare 7 11).prepared = true :=
  ⟨rfl, rfl, rfl, rfl⟩

/-- C4 counterexample: the TemplateEntry invariant as claimed fails — every
entry has stride `sizeof(DescriptorData) ≠ 0` while `descriptorCount = 1`,
so "stride non-zero only when descriptorCount > 1" is violated. -/
theorem templateEntryClaimedInvariantFails :
    ¬ (∀ e ∈ template_entries, entryClaimedInvariant e) := by
  decide

/-- C4 amended: every template entry satisfies
`byteOffset + descriptor size ≤ sizeof(DescriptorData)` and
`stride = sizeof(DescriptorData)`; the stride is non-zero even though every
entry has `descriptorCount = 1`. -/
theorem templateEntryInvariantAmended :
    ∀ e ∈ template_entries,
      e.offset + descriptorInfoSize e.descriptorType ≤ sizeofDescriptorData ∧
      e.stride = sizeofDescriptorData ∧
      e.descriptorCount = 1 ∧
      e.stride ≠ 0 := by
  decide

/-- C4 witness: the amended invariant instantiated at the binding-0 entry. -/
theorem templateEntryInvariantAmendedWitness :
    ({ dstBinding := 0
       dstArrayElement := 0
       descriptorCount := 1
       descriptorType := DescriptorType.uniformBuffer
       offset := 0
       stride := sizeofDescriptorData } : VkDescriptorUpdateTemplateEntry) ∈ template_entries ∧
    ((0 : Nat) + descriptorInfoSize DescriptorType.uniformBuffer ≤ sizeofDescriptorData ∧
      sizeofDescriptorData = sizeofDescriptorData ∧
      (1 : Nat) = 1 ∧
      sizeofDescriptorData ≠ 0) :=
  ⟨by decide,
    templateEntryInvariantAmended
      { dstBinding := 0
        dstArrayElement := 0
        descriptorCount := 1
        descriptorType := DescriptorType.uniformBuffer
        offset := 0
        stride := sizeofDescriptorData }
      (by decide)⟩

/-- C5: rotation accumulation wraps by a single subtraction of 360 whenever
the accumulator exceeds 360, and at the claim's concrete input — start 359°,
angular velocity 2.5°/s, delta time 1 s — the post-update value is 1.5°,
not 361.5°. -/
theorem rotationWrapBySingleSubtraction :
    (∀ r inc : ℚ, 360 < r + inc → wrapStep r inc = r + inc - 360) ∧
    wrapStep 359 (5 / 2 * 1) = 3 / 2 ∧
    wrapStep 359 (5 / 2 * 1) ≠ 723 / 2 := by
  refine ⟨?_, ?_, ?_⟩
  · intro r inc h
    simp [wrapStep, h]
  · norm_num [wrapStep]
  · norm_num [wrapStep]

/-- C5 witness: the wrap equation applied at start 359°, increment 2.5°. -/
theorem rotationWrapBySingleSubtractionWitness :
    (360 : ℚ) < 359 + 5 / 2 ∧ wrapStep 359 (5 / 2) = 359 + 5 / 2 - 360 :=
  ⟨by norm_num, rotationWrapBySingleSubtraction.1 359 (5 / 2) (by norm_num)⟩

/-- C6: every update composes each cube's model matrix in the fixed order
translate → rotate-X → rotate-Y → rotate-Z → scale, with the translation
fixed per object (cube 0 at (-2,0,0), cube 1 at (1.5,0.5,0)), the rotations
taken from the cube's accumulated rotation state at entry, and the fixed
uniform scale 0.25. -/
theorem modelMatrixCompositionOrder :
    ∀ (cosd sind : ℚ → ℚ) (animate paused : Bool) (frameTimer : ℚ)
      (cubes : CubeSt × CubeSt),
      (updateCubeUniformBuffers cosd sind animate paused frameTimer cubes).1.mappedBuffer =
        transMat ⟨-2, 0, 0⟩ *
          rotXMat (cosd cubes.1.rotation.x) (sind cubes.1.rotation.x) *
          rotYMat (cosd cubes.1.rotation.y) (sind cubes.1.rotation.y) *
          rotZMat (cosd cubes.1.rotation.z) (sind cubes.1.rotation.z) *
          scaleMat (1 / 4) ∧
      (updateCubeUniformBuffers cosd sind animate paused frameTimer cubes).2.mappedBuffer =
        transMat ⟨3 / 2, 1 / 2, 0⟩ *
          rotXMat (cosd cubes.2.rotation.x) (sind cubes.2.rotation.x) *
          rotYMat (cosd cubes.2.rotation.y) (sind cubes.2.rotation.y) *
          rotZMat (cosd cubes.2.rotation.z) (sind cubes.2.rotation.z) *
          scaleMat (1 / 4) := by
  intro cosd sind animate paused frameTimer cubes
  constructor <;>
  · simp only [updateCubeUniformBuffers, applyRotScale, glmTranslate, glmRotateX,
      glmRotateY, glmRotateZ, glmScale]
    split <;> simp [one_mul, mul_assoc]

/-- C10: the model matrix written to each cube's host-mapped uniform buffer
is computed from the rotation state as it was at entry to
`updateCubeUniformBuffers`; the rotation increment performed in the same call
(only when animating and not paused) changes only the rotation state, hence
takes effect first in the matrix written by the next call. -/
theorem writtenMatrixUsesEntryRotation :
    ∀ (cosd sind : ℚ → ℚ) (animate paused : Bool) (frameTimer : ℚ)
      (cubes : CubeSt × CubeSt),
      (updateCubeUniformBuffers cosd sind animate paused frameTimer cubes).1.mappedBuffer =
        cubeModelFromRotation cosd sind ⟨-2, 0, 0⟩ cubes.1.rotation ∧
      (updateCubeUniformBuffers cosd sind animate paused frameTimer cubes).2.mappedBuffer =
        cubeModelFromRotation cosd sind ⟨3 / 2, 1 / 2, 0⟩ cubes.2.rotation ∧
      (updateCubeUniformBuffers cosd sind animate paused frameTimer cubes).1.rotation.x =
        (if animate && !paused then wrapStep cubes.1.rotation.x (5 / 2 * frameTimer)
         else cubes.1.rotation.x) ∧
      (updateCubeUniformBuffers cosd sind animate paused frameTimer cubes).2.rotation.y =
        (if animate && !paused then wrapStep cubes.2.rotation.y (2 * frameTimer)
         else cubes.2.rotation.y) := by
  intro cosd sind animate paused frameTimer cubes
  refine ⟨?_, ?_, ?_, ?_⟩ <;>
  · simp only [updateCubeUniformBuffers, applyRotScale, cubeModelFromRotation]
    split <;> simp

/-- On the branch where a required proc is in the list and resolves to null,
`resolveProcs` returns a fatal diagnostic. -/
lemma resolveProcs_error_of_missing :
    ∀ (names : List String) (resolve : String → Option Nat) (n : String),
      n ∈ names → resolve n = none →
      ∃ msg, resolveProcs resolve names = Except.error msg := by
  intro names
  induction names with
  | nil =>
    intro resolve n h
    exact absurd h (List.not_mem_nil n)
  | cons m rest ih =>
    intro resolve n hmem hnone
    cases hm : resolve m with
    | none =>
      exact ⟨"Could not get a valid function pointer for " ++ m, by simp [resolveProcs, hm]⟩
    | some p =>
      rcases List.mem_cons.mp hmem with rfl | hmem
      · rw [hm] at hnone
        exact absurd hnone (by simp)
      · obtain ⟨msg, hmsg⟩ := ih resolve n hmem hnone
        exact ⟨msg, by simp [resolveProcs, hm, hmsg]⟩

/-- C7: if any required entry point resolves to null during `prepare()`, the
process terminates fatally with the corresponding diagnostic, and no
per-frame work ever runs with an unresolved entry point. -/
theorem missingProcIsFatal :
    ∀ (resolve : String → Option Nat) (n : String),
      n ∈ requiredProcs → resolve n = none →
      (∃ msg, loadProcs resolve = Except.error msg) ∧
      perFrameWorkRuns resolve = false := by
  intro resolve n hmem hnone
  obtain ⟨msg, hmsg⟩ := resolveProcs_error_of_missing requiredProcs resolve n hmem hnone
  refine ⟨⟨msg, hmsg⟩, ?_⟩
  simp [perFrameWorkRuns, loadProcs, hmsg, Except.isOk, Except.toBool]

/-- C7 witness: a driver resolving nothing fails fatally on the first
required entry point and runs no per-frame work. -/
theorem missingProcIsFatalWitness :
    "vkCmdPushDescriptorSetKHR" ∈ requiredProcs ∧
    ((∃ msg, loadProcs (fun _ => none) = Except.error msg) ∧
      perFrameWorkRuns (fun _ => none) = false) :=
  ⟨by decide, missingProcIsFatal (fun _ => none) "vkCmdPushDescriptorSetKHR" (by decide) rfl⟩

/-- C8 (code evaluated at the failing input): a device that rejects only the
update-template construction still reaches `prepared = true` — the call's
result is the only one not passed through `VK_CHECK_RESULT` — while a device
rejecting the descriptor set layout, pipeline layout or graphics pipeline
construction is caught fatally at that call. -/
theorem templateConstructionFailureUnnoticed :
    runSetup (fun c => !(c == SetupCall.createDescriptorUpdateTemplate)) = Except.ok true ∧
    resultChecked SetupCall.createDescriptorUpdateTemplate = false ∧
    runSetup (fun c => !(c == SetupCall.createDescriptorSetLayout)) =
      Except.error SetupCall.createDescriptorSetLayout ∧
    runSetup (fun c => !(c == SetupCall.createPipelineLayout)) =
      Except.error SetupCall.createPipelineLayout ∧
    runSetup (fun c => !(c == SetupCall.createGraphicsPipelines)) =
      Except.error SetupCall.createGraphicsPipelines := by
  refine ⟨rfl, rfl, rfl, rfl, rfl⟩

/-- One wrap step keeps an accumulator within `[0, 360]` when the increment
is in `[0, 360)`. -/
lemma wrapStep_bounds (r inc : ℚ) (h0 : 0 ≤ r) (h1 : r ≤ 360)
    (h2 : 0 ≤ inc) (h3 : inc < 360) :
    0 ≤ wrapStep r inc ∧ wrapStep r inc ≤ 360 := by
  simp only [wrapStep]
  split_ifs with h <;> constructor <;> linarith

/-- Folding wrap steps over in-range increments keeps the accumulator within
`[0, 360]`. -/
lemma foldl_wrapStep_bounds :
    ∀ (incs : List ℚ) (r : ℚ), (∀ x ∈ incs, 0 ≤ x ∧ x < 360) →
      0 ≤ r → r ≤ 360 →
      0 ≤ incs.foldl wrapStep r ∧ incs.foldl wrapStep r ≤ 360 := by
  intro incs
  induction incs with
  | nil =>
    intro r _ h0 h1
    exact ⟨h0, h1⟩
  | cons a rest ih =>
    intro r hall h0 h1
    have ha := hall a (List.mem_cons_self a rest)
    have hw := wrapStep_bounds r a h0 h1 ha.1 ha.2
    simpa using ih (wrapStep r a) (fun x hx => hall x (List.mem_cons_of_mem a hx)) hw.1 hw.2

/-- C9 amended: after every update, each axis accumulator lies in the closed
interval `[0, 360]` (it can be exactly 360, because the wrap test is the
strict comparison `> 360`), for every sequence of non-negative increments
smaller than 360 starting from rotation 0. -/
theorem rotationAccumulatorBounded :
    ∀ incs : List ℚ, (∀ x ∈ incs, 0 ≤ x ∧ x < 360) →
      0 ≤ rotAfter incs ∧ rotAfter incs ≤ 360 := by
  intro incs h
  exact foldl_wrapStep_bounds incs 0 h (by norm_num) (by norm_num)

/-- C9 witness: the bound applied to the increment sequence 350°, 20°. -/
theorem rotationAccumulatorBoundedWitness :
    (∀ x ∈ [(350 : ℚ), 20], 0 ≤ x ∧ x < 360) ∧
    (0 ≤ rotAfter [350, 20] ∧ rotAfter [350, 20] ≤ 360) :=
  ⟨by decide, rotationAccumulatorBounded [350, 20] (by decide)⟩

/-- C9 counterexample: with the reachable increments 357.5° and 2.5° (both
non-negative and below 360°) the accumulator lands exactly on 360°, which is
outside the claimed half-open interval `[0, 360)`. -/
theorem rotationAccumulatorReaches360 :
    (0 : ℚ) ≤ 715 / 2 ∧ (715 : ℚ) / 2 < 360 ∧
    (0 : ℚ) ≤ 5 / 2 ∧ (5 : ℚ) / 2 < 360 ∧
    rotAfter [715 / 2, 5 / 2] = 360 ∧
    ¬ rotAfter [715 / 2, 5 / 2] < 360 := by
  norm_num [rotAfter, wrapStep]

end PushDescriptorsWithTemplate
